import Mathlib

/-!
Verification of the device concurrency and lifecycle engine of a small
home-automation simulator (sensors, switches, passive switches, and the
device registry that owns them).

The Python source is shallowly embedded:
* numeric values (Python ints / floats) are modelled as rationals `ℚ`;
* `None` is modelled by `Option.none`;
* raised exceptions are modelled by an `Err` value returned next to the
  (possibly partially mutated) state, mirroring the fact that a Python
  exception leaves all mutations performed before the raise in place;
* each random draw (`np.random.choice`) is an explicit input;
* wall-clock durations (`time.sleep`, executor timeouts) are explicit
  natural-number second counts.
-/

namespace DemoIot

/-- Errors raised by the embedded code, mirroring the exception classes of
`devices/errors.py`, `db/errors.py` and the built-in Python exceptions the
source can raise.  Constructors carry the device name the exception message
is annotated with (instead of the full message string). -/
inductive Err where
  | deviceNotFound (name : String)
  | deviceAlreadyExists (name : String)
  | deviceType (name : String)
  | timeoutError (name : String)
  | valueError
  | notImplementedError
  | attributeError (attr : String)
  | typeError
  | databaseInsertionError
deriving DecidableEq, Repr

/-- `np.maximum(a, b)`. -/
def npMaximum (a b : ℚ) : ℚ := if a ≤ b then b else a

/-- `np.minimum(a, b)`. -/
def npMinimum (a b : ℚ) : ℚ := if a ≤ b then a else b

/-- `np.clip(x, lo, hi) = np.minimum(hi, np.maximum(lo, x))`. -/
def npClip (x lo hi : ℚ) : ℚ := npMinimum hi (npMaximum lo x)

/-- `np.median([a, b])` on a two element list: the mean of the two values. -/
def npMedianPair (a b : ℚ) : ℚ := (a + b) / 2

/-- The fixed out-of-range fault value `-999999` used by
`Sensor._apply_random_corruption` and tested for by `Sensor._data_generator`. -/
def sentinel : ℚ := -999999

/-- `DELAY_STANDARD` from `devices/sensors/sensor.py`. -/
def DELAY_STANDARD : Nat := 5

/-- `DELAY_MAX` from `devices/sensors/sensor.py`. -/
def DELAY_MAX : Nat := 30

/-- Outcome of `np.random.choice([(-0.01 * max), 0, (0.01 * max)])` in
`Sensor._data_generator`: which of the three candidate deltas was drawn. -/
inductive DeltaPick where
  | down
  | zero
  | up
deriving DecidableEq, Repr

/-- The delta value selected by a `DeltaPick`, for a given `max_data`:
`-0.01 * max`, `0`, or `0.01 * max`. -/
def deltaChoice (maxData : ℚ) : DeltaPick → ℚ
  | .down => -(maxData / 100)
  | .zero => 0
  | .up => maxData / 100

/-- The random draws consumed by one iteration of `Sensor._data_generator`:
the delta choice and the two independent `np.random.choice([True, False],
p=[0.01, 0.99])` corruption draws of `_apply_random_corruption`. -/
structure Draw where
  pick : DeltaPick
  corruptMissing : Bool
  corruptFault : Bool
deriving DecidableEq, Repr

/-- `Sensor._apply_random_corruption`: with the first draw replace the value
with `None`; otherwise with the second draw replace it with the fault
sentinel `-999999`; otherwise keep it. -/
def applyRandomCorruption (originalValue : ℚ) (corruptMissing corruptFault : Bool) :
    Option ℚ :=
  if corruptMissing then none
  else if corruptFault then some sentinel
  else some originalValue

/-- Program counter of a device background coroutine
(`Sensor._data_generator` / `PassiveSwitch._data_generator`) between two
scheduler resumptions: created but never run, suspended at its
`await asyncio.sleep`, exited normally / via `CancelledError`, or terminated
by an uncaught exception escaping the `while` loop. -/
inductive TaskPC where
  | notStarted
  | atSleep
  | done
  | failed
deriving DecidableEq, Repr

/-- State of a device background task: where its coroutine is suspended,
whether `Task.cancel()` has been requested, and how many times the loop body
has invoked the notification hook so far. -/
structure TaskState where
  pc : TaskPC
  cancelRequested : Bool
  hookCalls : Nat
deriving DecidableEq, Repr

/-- A freshly created task (`loop.create_task(...)`), scheduled but not yet
run. -/
def newTask : TaskState :=
  { pc := .notStarted, cancelRequested := false, hookCalls := 0 }

/-- `Task.cancel()`: request cancellation; delivered at the coroutine's next
suspension point, not immediately. -/
def cancelTask (t : TaskState) : TaskState := { t with cancelRequested := true }

/-- One scheduler resumption of a generator coroutine
(`Sensor._data_generator` / `PassiveSwitch._data_generator`).  Both bodies
are `try: while not stop_event.is_set(): <mutate state>; <invoke hook>;
await asyncio.sleep(...) except asyncio.CancelledError: log` — so:
a requested cancellation raises `CancelledError` at the suspension point,
which is caught and ends the coroutine; a set stop event makes the `while`
condition fail and ends the coroutine; otherwise the body runs once,
invoking the hook; if the hook raises, no handler other than the
`CancelledError` one exists, so the exception escapes the loop and
terminates the task. -/
def resumeTask (stopEvent hookRaises : Bool) (t : TaskState) : TaskState :=
  match t.pc with
  | .done => t
  | .failed => t
  | _ =>
    if t.cancelRequested then { t with pc := .done }
    else if stopEvent then { t with pc := .done }
    else if hookRaises then { t with pc := .failed, hookCalls := t.hookCalls + 1 }
    else { t with pc := .atSleep, hookCalls := t.hookCalls + 1 }

/-- Iterated scheduler resumptions; each list entry is the
`(stop-event, hook-raises)` environment of one resumption. -/
def runTask (t : TaskState) : List (Bool × Bool) → TaskState
  | [] => t
  | (se, hr) :: env => runTask (resumeTask se hr t) env

/-- Which function a notification-hook slot currently points to: the no-op
method of the default `callbacks` object, the web-socket broadcaster from
`app/ws_utils.py`, or the live-data insert of `db/manager.py`. -/
inductive HookRef where
  | noop
  | wsBroadcast
  | dbInsertLive
deriving DecidableEq, Repr

/-- The two hook slots `DeviceManager.enable_sensor` assigns on a sensor:
`update_callbacks.notify_sensor_ws` and
`update_callbacks.update_sensor_live_data`. -/
structure SensorHooks where
  notifySensorWs : HookRef
  updateSensorLiveData : HookRef
deriving DecidableEq, Repr

/-- The `callbacks` object of `devices/switches/passive_switch.py`: slots
`notify_switch_ws` and `update_switch_live_data`, both no-ops until the
registry rewires them. -/
structure SwitchHooks where
  notifySwitchWs : HookRef
  updateSwitchLiveData : HookRef
deriving DecidableEq, Repr

/-- The `Sensor` class of `devices/sensors/sensor.py`.  `updateCallbacks`
models the Python attribute `update_callbacks`: `Sensor.__init__` never
defines it, so on every sensor built by the source it is `none`
("attribute not present"); reading it then raises `AttributeError`. -/
structure Sensor where
  name : String
  value : Option ℚ
  prevValue : Option ℚ
  minData : ℚ
  maxData : ℚ
  sampleRate : ℤ
  stopEvent : Bool
  task : Option TaskState
  updateCallbacks : Option SensorHooks
deriving DecidableEq, Repr

/-- `Sensor.__init__(name, min, max, sample_rate)`: the value starts at
`float(np.median([min, max]))`, `prev_value` at `None`, no task, and no
`update_callbacks` attribute. -/
def sensorInit (name : String) (min max : ℚ) (sampleRate : ℤ) : Sensor :=
  { name := name
    value := some (npMedianPair min max)
    prevValue := none
    minData := min
    maxData := max
    sampleRate := sampleRate
    stopEvent := false
    task := none
    updateCallbacks := none }

/-- The recovery assignment of `Sensor._data_generator`'s `else` branch:
`self._value = float(np.clip(self._prev_value + change, min, max))`.
When `prev_value` is `None`, `None + change` raises `TypeError`. -/
def recoverFromPrev (s : Sensor) (delta : ℚ) : Except Err Sensor :=
  match s.prevValue with
  | some p => .ok { s with value := some (npClip (p + delta) s.minData s.maxData) }
  | none => .error .typeError

/-- One iteration of the `while` body of `Sensor._data_generator`:
if the current value is neither `None` nor the sentinel, promote it to
`prev_value` and commit the corrupted clipped `value + change`; otherwise
(value `None` or sentinel) leave `prev_value` alone and commit the clipped
`prev_value + change` with no corruption applied. -/
def sensorCycle (s : Sensor) (d : Draw) : Except Err Sensor :=
  match s.value with
  | some x =>
    if x = sentinel then recoverFromPrev s (deltaChoice s.maxData d.pick)
    else
      .ok { s with
              prevValue := some x
              value := applyRandomCorruption
                         (npClip (x + deltaChoice s.maxData d.pick) s.minData s.maxData)
                         d.corruptMissing d.corruptFault }
  | none => recoverFromPrev s (deltaChoice s.maxData d.pick)

/-- Iterated production cycles of `Sensor._data_generator`.  A set stop
event makes the `while` condition fail; an uncaught `TypeError` terminates
the coroutine, freezing the sensor's state from then on. -/
def sensorRun (s : Sensor) : List Draw → Sensor
  | [] => s
  | d :: ds =>
    if s.stopEvent then s
    else
      match sensorCycle s d with
      | .ok s2 => sensorRun s2 ds
      | .error _ => s

/-- `Sensor.read_data` returns `(self._value, self._prev_value)`; the random
delays affect only when it returns, not what it returns. -/
def readData (s : Sensor) : Option ℚ × Option ℚ := (s.value, s.prevValue)

/-- Wall-clock duration of one `Sensor.read_data` call: `DELAY_STANDARD`
seconds when the first 1% draw fires, plus `DELAY_MAX` seconds when the
second (independent) 1% draw fires. -/
def readDelay (delayStd delayMax : Bool) : Nat :=
  (if delayStd then DELAY_STANDARD else 0) + (if delayMax then DELAY_MAX else 0)

/-- `Sensor.stop`: set the stop event and, when a task exists, request its
cancellation.  The task is signalled, never awaited. -/
def sensorStop (s : Sensor) : Sensor :=
  { s with stopEvent := true, task := s.task.map cancelTask }

/-- `Sensor.set_sample_rate`: reject rates below 1 with `ValueError`,
otherwise store the new rate. -/
def setSampleRate (s : Sensor) (sampleRate : ℤ) : Sensor × Option Err :=
  if sampleRate < 1 then (s, some .valueError)
  else ({ s with sampleRate := sampleRate }, none)

/-- The spacing between two production cycles: `Sensor._data_generator`
sleeps `self._sample_rate` seconds at the end of every cycle. -/
def cycleSpacing (s : Sensor) : ℤ := s.sampleRate

/-- The `SwitchType` enum of `devices/utils.py`. -/
inductive SwitchType where
  | active_switch
  | passive_switch
deriving DecidableEq, Repr

/-- The `Switch` class of `devices/switches/switch.py` (an active switch):
state, and the epoch-second timestamp of the last change. -/
structure Switch where
  name : String
  state : Bool
  latestTs : ℤ
deriving DecidableEq, Repr

/-- `Switch.__init__(name)`: off, timestamped with the current time. -/
def switchInit (name : String) (now : ℤ) : Switch :=
  { name := name, state := false, latestTs := now }

/-- `Switch.set_state(state)`: store the state and refresh the timestamp. -/
def switchSetState (sw : Switch) (state : Bool) (now : ℤ) : Switch :=
  { sw with state := state, latestTs := now }

/-- The `PassiveSwitch` class of `devices/switches/passive_switch.py`:
switch-shaped state plus a stop event, an optional background task, and a
`callbacks` object whose two slots start as no-ops. -/
structure PassiveSwitch where
  name : String
  state : Bool
  latestTs : ℤ
  stopEvent : Bool
  task : Option TaskState
  updateCallbacks : SwitchHooks
deriving DecidableEq, Repr

/-- `PassiveSwitch.__init__(name)`. -/
def passiveSwitchInit (name : String) (now : ℤ) : PassiveSwitch :=
  { name := name
    state := false
    latestTs := now
    stopEvent := false
    task := none
    updateCallbacks := { notifySwitchWs := .noop, updateSwitchLiveData := .noop } }

/-- `PassiveSwitch.stop`: set the stop event and, when a task exists,
request its cancellation.  Signalled, never awaited — the mirror image of
`Sensor.stop`. -/
def passiveStop (p : PassiveSwitch) : PassiveSwitch :=
  { p with stopEvent := true, task := p.task.map cancelTask }

/-- `PassiveSwitch.set_state` always raises `NotImplementedError` and leaves
the switch untouched. -/
def passiveSetState (p : PassiveSwitch) (state : Bool) : PassiveSwitch × Option Err :=
  (p, some .notImplementedError)

/-- The closed variant set stored in the registry's device map.  Python's
`isinstance` checks map to: `isinstance(d, Sensor)` ↔ `.sensor`;
`isinstance(d, Switch)` ↔ `.switch` or `.passiveSwitch` (subclass);
`isinstance(d, PassiveSwitch)` ↔ `.passiveSwitch`. -/
inductive Device where
  | sensor (s : Sensor)
  | switch (sw : Switch)
  | passiveSwitch (p : PassiveSwitch)
deriving DecidableEq, Repr

/-- `device.name` for each variant. -/
def Device.devName : Device → String
  | .sensor s => s.name
  | .switch sw => sw.name
  | .passiveSwitch p => p.name

/-- The background task owned by a device, if any (an active switch has
none). -/
def deviceTask : Device → Option TaskState
  | .sensor s => s.task
  | .switch _ => none
  | .passiveSwitch p => p.task

/-- The `device.stop()` call performed by `DeviceManager.remove_device` for
sensors and passive switches; a no-op for active switches. -/
def stopDevice : Device → Device
  | .sensor s => .sensor (sensorStop s)
  | .switch sw => .switch sw
  | .passiveSwitch p => .passiveSwitch (passiveStop p)

/-- Key lookup in a Python dict modelled as an insertion-ordered
association list. -/
def dictGet {α : Type} : List (String × α) → String → Option α
  | [], _ => none
  | (k2, v) :: rest, k => if k2 = k then some v else dictGet rest k

/-- `key in dict`. -/
def dictContains {α : Type} (d : List (String × α)) (k : String) : Bool :=
  (dictGet d k).isSome

/-- `dict[key] = value`: replace in place when the key exists, else append. -/
def dictSet {α : Type} : List (String × α) → String → α → List (String × α)
  | [], k, v => [(k, v)]
  | (k2, v2) :: rest, k, v =>
    if k2 = k then (k, v) :: rest else (k2, v2) :: dictSet rest k v

/-- `del dict[key]`: drop the (unique) entry with the given key. -/
def dictRemove {α : Type} : List (String × α) → String → List (String × α)
  | [], _ => []
  | (k2, v2) :: rest, k =>
    if k2 = k then rest else (k2, v2) :: dictRemove rest k

/-- The rows of the persistence gateway (`db/manager.py`) the registry
reads and writes: metadata and live-data tables for sensors and switches. -/
structure DB where
  sensorMeta : List (String × ℚ × ℚ × ℤ) := []
  sensorLive : List (String × Option ℚ × Option ℚ × ℤ) := []
  switchMeta : List (String × SwitchType) := []
  switchLive : List (String × Bool × ℤ) := []
deriving DecidableEq, Repr

/-- `DatabaseManager.insert_sensor_metadata(device)`: skip silently when a
row with the device's name exists; otherwise build the row from
`device.name`, `device.min_data`, `device.max_data` and
`device.sample_rate` — but the source `Sensor` class defines no
`sample_rate` property, so that attribute access raises `AttributeError`,
which the surrounding `except Exception` rolls back and re-raises as
`DatabaseInsertionError`; nothing is committed. -/
def insertSensorMetadata (db : DB) (s : Sensor) : DB × Option Err :=
  if db.sensorMeta.any (fun row => row.1 = s.name) then (db, none)
  else (db, some .databaseInsertionError)

/-- `DatabaseManager.insert_switch_metadata(device)`: skip silently when a
row with the device's name exists; otherwise insert `(name, type)`. -/
def insertSwitchMetadata (db : DB) (name : String) (ty : SwitchType) : DB × Option Err :=
  if db.switchMeta.any (fun row => row.1 = name) then (db, none)
  else ({ db with switchMeta := db.switchMeta ++ [(name, ty)] }, none)

/-- `DatabaseManager.delete_device(name)`: when sensor metadata for the name
exists, delete it together with the sensor live data; likewise for switch
metadata and switch live data. -/
def dbDeleteDevice (db : DB) (name : String) : DB :=
  let db1 :=
    if db.sensorMeta.any (fun row => row.1 = name) then
      { db with
          sensorMeta := db.sensorMeta.filter (fun row => row.1 ≠ name)
          sensorLive := db.sensorLive.filter (fun row => row.1 ≠ name) }
    else db
  if db1.switchMeta.any (fun row => row.1 = name) then
    { db1 with
        switchMeta := db1.switchMeta.filter (fun row => row.1 ≠ name)
        switchLive := db1.switchLive.filter (fun row => row.1 ≠ name) }
  else db1

/-- The `DeviceManager`'s state: the name → device map and the persistence
gateway it synchronizes against. -/
structure Manager where
  devices : List (String × Device)
  db : DB
deriving DecidableEq, Repr

/-- `DeviceManager.enable_sensor(name, type_check)`: `NotFound` when the
name is absent; on a non-sensor, `WrongType` under strict mode and a silent
no-op otherwise; on a sensor, assign the two hook slots of
`device.update_callbacks` and start the background task — but since
`Sensor.__init__` never creates `update_callbacks`, the assignment's
attribute read raises `AttributeError` on every source-constructed sensor. -/
def enableSensor (m : Manager) (name : String) (typeCheck : Bool) : Manager × Option Err :=
  match dictGet m.devices name with
  | none => (m, some (.deviceNotFound name))
  | some (.sensor s) =>
    match s.updateCallbacks with
    | none => (m, some (.attributeError "update_callbacks"))
    | some _ =>
      let s2 := { s with
                    updateCallbacks :=
                      some { notifySensorWs := .wsBroadcast
                             updateSensorLiveData := .dbInsertLive }
                    task := some newTask }
      ({ m with devices := dictSet m.devices name (.sensor s2) }, none)
  | some _ =>
    if typeCheck then (m, some (.deviceType name)) else (m, none)

/-- `DeviceManager.enable_switch(name, type_check)`: `NotFound` when
absent; on anything but a passive switch, `WrongType` under strict mode and
a silent no-op otherwise; on a passive switch, wire both hook slots of its
`callbacks` object and start its background task. -/
def enableSwitch (m : Manager) (name : String) (typeCheck : Bool) : Manager × Option Err :=
  match dictGet m.devices name with
  | none => (m, some (.deviceNotFound name))
  | some (.passiveSwitch p) =>
    let p2 := { p with
                  updateCallbacks :=
                    { notifySwitchWs := .wsBroadcast
                      updateSwitchLiveData := .dbInsertLive }
                  task := some newTask }
    ({ m with devices := dictSet m.devices name (.passiveSwitch p2) }, none)
  | some _ =>
    if typeCheck then (m, some (.deviceType name)) else (m, none)

/-- `DeviceManager.add_device(device)`: `AlreadyExists` when the name is
taken; otherwise insert into the map, then for a sensor call
`enable_sensor` and persist sensor metadata, for a passive switch call
`enable_switch` and persist switch metadata, and for an active switch just
persist switch metadata.  An exception from an inner call leaves the map
insertion in place. -/
def addDevice (m : Manager) (dev : Device) : Manager × Option Err :=
  let name := dev.devName
  if dictContains m.devices name then (m, some (.deviceAlreadyExists name))
  else
    let m1 : Manager := { m with devices := dictSet m.devices name dev }
    match dev with
    | .sensor s =>
      match enableSensor m1 name true with
      | (m2, some e) => (m2, some e)
      | (m2, none) =>
        match insertSensorMetadata m2.db s with
        | (db2, e) => ({ m2 with db := db2 }, e)
    | .passiveSwitch _ =>
      match enableSwitch m1 name true with
      | (m2, some e) => (m2, some e)
      | (m2, none) =>
        match insertSwitchMetadata m2.db name .passive_switch with
        | (db2, e) => ({ m2 with db := db2 }, e)
    | .switch _ =>
      match insertSwitchMetadata m1.db name .active_switch with
      | (db2, e) => ({ m1 with db := db2 }, e)

/-- `DeviceManager.remove_device(name)`: `NotFound` when absent; otherwise
stop the device (sensors and passive switches), delete it from the map and
delete its persisted records.  The middle component is the evicted device
object — it still exists on the event loop side after `del` drops the map's
reference, so the stopped task it owns remains observable. -/
def removeDevice (m : Manager) (name : String) : Manager × Option Device × Option Err :=
  match dictGet m.devices name with
  | some dev =>
    ({ devices := dictRemove m.devices name, db := dbDeleteDevice m.db name },
     some (stopDevice dev), none)
  | none => (m, none, some (.deviceNotFound name))

/-- A `for device_name in self._devices.keys():` sweep running `step` on
every key; a raised exception aborts the loop and propagates, as in
Python. -/
def runSweep (step : Manager → String → Manager × Option Err) :
    Manager → List String → Manager × Option Err
  | m, [] => (m, none)
  | m, k :: ks =>
    match step m k with
    | (m2, none) => runSweep step m2 ks
    | (m2, some e) => (m2, some e)

/-- `DeviceManager.enable_all_sensors`: sweeps `enable_sensor` over every
key — with the default `type_check=True`, unlike every other whole-fleet
sweep in the class. -/
def enableAllSensors (m : Manager) : Manager × Option Err :=
  runSweep (fun m2 k => enableSensor m2 k true) m (m.devices.map (fun e => e.1))

/-- `DeviceManager.enable_all_switches`: sweeps `enable_switch` over every
key with `type_check=False`. -/
def enableAllSwitches (m : Manager) : Manager × Option Err :=
  runSweep (fun m2 k => enableSwitch m2 k false) m (m.devices.map (fun e => e.1))

/-- `DeviceManager.set_switch(name, state, type_check)`: `NotFound` when
absent; a sensor (not an instance of `Switch`) gives `WrongType` strictly,
silent skip relaxed; a passive switch (instance of `Switch` but then caught
by the `isinstance(device, PassiveSwitch)` check) likewise; an active
switch is actually set. -/
def setSwitch (m : Manager) (name : String) (state : Bool) (typeCheck : Bool)
    (now : ℤ) : Manager × Option Err :=
  match dictGet m.devices name with
  | none => (m, some (.deviceNotFound name))
  | some (.sensor _) =>
    if typeCheck then (m, some (.deviceType name)) else (m, none)
  | some (.passiveSwitch _) =>
    if typeCheck then (m, some (.deviceType name)) else (m, none)
  | some (.switch sw) =>
    ({ m with devices := dictSet m.devices name (.switch (switchSetState sw state now)) },
     none)

/-- `DeviceManager.set_all_switches(state)`: sweeps `set_switch` over every
key with `type_check=False`. -/
def setAllSwitches (m : Manager) (state : Bool) (now : ℤ) : Manager × Option Err :=
  runSweep (fun m2 k => setSwitch m2 k state false now) m (m.devices.map (fun e => e.1))

/-- `get_sensor_data_with_timeout(sensor, timeout)` from
`devices/utils.py`: submit `sensor.read_data` to a fresh
`ThreadPoolExecutor` and wait `timeout` seconds for the result.  On
timeout, `future.cancel()` fails (the read is already running) and
`TimeoutError` is raised — but leaving the `with` block calls
`executor.shutdown(wait=True)`, which joins the worker thread, so in either
case control returns to the caller only after the full read duration.  The
second component is that caller-observed elapsed time in seconds. -/
def getSensorDataWithTimeout (s : Sensor) (delayStd delayMax : Bool)
    (timeout : Nat) : Except Err (Option ℚ × Option ℚ) × Nat :=
  let dur := readDelay delayStd delayMax
  if dur ≤ timeout then (.ok (readData s), dur)
  else (.error (.timeoutError s.name), dur)

/-- `DeviceManager.get_sensor_data(name, type_check)`: `NotFound` when
absent; a non-sensor gives `WrongType` strictly and `None` relaxed;
otherwise delegate to the bounded reader with `timeout=6`, re-raising any
`TimeoutError` as one annotated with the registry name. -/
def getSensorData (m : Manager) (name : String) (typeCheck : Bool)
    (delayStd delayMax : Bool) : Except Err (Option (Option ℚ × Option ℚ)) × Nat :=
  match dictGet m.devices name with
  | none => (.error (.deviceNotFound name), 0)
  | some (.sensor s) =>
    match getSensorDataWithTimeout s delayStd delayMax 6 with
    | (.ok data, dur) => (.ok (some data), dur)
    | (.error _, dur) => (.error (.timeoutError name), dur)
  | some _ =>
    if typeCheck then (.error (.deviceType name), 0) else (.ok none, 0)

/-- `DeviceManager.set_sensor_sample_rate(name, sample_rate)`: `NotFound`
when absent, `WrongType` on a non-sensor (always strict), else delegate to
`Sensor.set_sample_rate`, whose `ValueError` propagates with the device
unchanged. -/
def setSensorSampleRate (m : Manager) (name : String) (sampleRate : ℤ) :
    Manager × Option Err :=
  match dictGet m.devices name with
  | none => (m, some (.deviceNotFound name))
  | some (.sensor s) =>
    match setSampleRate s sampleRate with
    | (_, some e) => (m, some e)
    | (s2, none) => ({ m with devices := dictSet m.devices name (.sensor s2) }, none)
  | some _ => (m, some (.deviceType name))

/-- The invariant claimed for a sensor's stored value: within `[lo, hi]`,
or the fault sentinel, or absent. -/
def valueWithinOrCorrupt (lo hi : ℚ) (v : Option ℚ) : Prop :=
  v = none ∨ v = some sentinel ∨ ∃ x, v = some x ∧ lo ≤ x ∧ x ≤ hi

/-- The per-cycle committed value as the spec words it (for comparison with
`sensorCycle`): when the current value is present the candidate is
`value + delta` clipped; exactly when it is absent the candidate is
recovered as `prev_value + delta` clipped; in both cases the random
corruption transform is applied to the candidate before it is committed. -/
def specCommittedValue (s : Sensor) (d : Draw) : Option ℚ :=
  match s.value with
  | some x =>
    applyRandomCorruption (npClip (x + deltaChoice s.maxData d.pick) s.minData s.maxData)
      d.corruptMissing d.corruptFault
  | none =>
    match s.prevValue with
    | some p =>
      applyRandomCorruption (npClip (p + deltaChoice s.maxData d.pick) s.minData s.maxData)
        d.corruptMissing d.corruptFault
    | none => none

/-- The committed value of one code cycle, when the cycle does not crash. -/
def cycleValue (s : Sensor) (d : Draw) : Option (Option ℚ) :=
  match sensorCycle s d with
  | .ok s2 => some s2.value
  | .error _ => none

/-- Fixture: a fresh default-range sensor registered under `S1`. -/
def c1Sensor : Sensor := sensorInit "S1" 0 100 1

/-- Fixture: a registry holding only the sensor `S1`. -/
def c1Manager : Manager := { devices := [("S1", .sensor c1Sensor)], db := {} }

/-- Fixture: the fresh sensor `add_device` is given in the C2 evaluation. -/
def c2Sensor : Sensor := sensorInit "S1" 0 100 1

/-- Fixture: a passive switch whose background task is suspended at its
sleep, three hook invocations in. -/
def c4Passive : PassiveSwitch :=
  { passiveSwitchInit "P1" 0 with
      task := some { pc := .atSleep, cancelRequested := false, hookCalls := 3 } }

/-- Fixture: a registry holding only the running passive switch `P1`. -/
def c4Manager : Manager := { devices := [("P1", .passiveSwitch c4Passive)], db := {} }

/-- Fixture: a heterogeneous registry—a passive switch and an active
switch. -/
def c5Manager : Manager :=
  { devices := [("P1", .passiveSwitch (passiveSwitchInit "P1" 0)),
                ("W1", .switch (switchInit "W1" 0))]
    db := {} }

/-- Fixture: a freshly started background task. -/
def c6Task : TaskState := newTask

/-- Fixture: a sensor whose value was corrupted to absent in the previous
cycle, with a valid previous value of 50. -/
def c7AbsentSensor : Sensor :=
  { sensorInit "S" 0 100 1 with value := none, prevValue := some 50 }

/-- Fixture: a sensor whose stored value is the fault sentinel, with a
valid previous value of 50. -/
def c7SentinelSensor : Sensor :=
  { sensorInit "S" 0 100 1 with value := some sentinel, prevValue := some 50 }

/-- Fixture: zero delta, first corruption draw fires. -/
def c7DrawMissing : Draw := { pick := .zero, corruptMissing := true, corruptFault := false }

/-- Fixture: zero delta, neither corruption draw fires. -/
def c7DrawClean : Draw := { pick := .zero, corruptMissing := false, corruptFault := false }

/-- Fixture: a registry holding a passive switch `P1` for the C9 witness. -/
def c9Manager : Manager :=
  { devices := [("P1", .passiveSwitch (passiveSwitchInit "P1" 0))], db := {} }

/-- Fixture: a registry holding a default sensor `S1` for the C8 witness. -/
def c8Sensor : Sensor := sensorInit "S1" 0 100 1

/-- Fixture: the registry wrapping `c8Sensor`. -/
def c8Manager : Manager := { devices := [("S1", .sensor c8Sensor)], db := {} }

/-- Fixture: a one-cycle draw stream for the C3 witness. -/
def c3Draws : List Draw := [{ pick := .up, corruptMissing := false, corruptFault := false }]

/-- Fixture: a sensor holding a live mid-range value, for the C7 witness. -/
def c7PresentSensor : Sensor :=
  { sensorInit "S" 0 100 1 with value := some 50, prevValue := some 40 }

/- ----------------------------------------------------------------- -/
/- Helper lemmas shared between claims                               -/
/- ----------------------------------------------------------------- -/

theorem npClip_le_right {lo hi : ℚ} (x : ℚ) : npClip x lo hi ≤ hi := by
  unfold npClip npMinimum
  split
  · exact le_rfl
  · next h => exact le_of_lt (lt_of_not_le h)

theorem le_npClip {lo hi : ℚ} (h : lo ≤ hi) (x : ℚ) : lo ≤ npClip x lo hi := by
  have hm : lo ≤ npMaximum lo x := by
    unfold npMaximum
    split
    · assumption
    · exact le_rfl
  unfold npClip npMinimum
  split
  · exact h
  · exact hm

theorem dictGet_dictSet_self {α : Type} (d : List (String × α)) (k : String) (v : α) :
    dictGet (dictSet d k v) k = some v := by
  induction d with
  | nil => simp [dictSet, dictGet]
  | cons hd tl ih =>
    obtain ⟨k2, v2⟩ := hd
    by_cases h : k2 = k
    · simp [dictSet, dictGet, h]
    · simp [dictSet, dictGet, h, ih]

theorem dictGet_dictSet_ne {α : Type} (d : List (String × α)) (k k2 : String) (v : α)
    (h : k2 ≠ k) : dictGet (dictSet d k v) k2 = dictGet d k2 := by
  have h2 : ¬ k = k2 := fun he => h he.symm
  induction d with
  | nil => simp [dictSet, dictGet, h2]
  | cons hd tl ih =>
    obtain ⟨k3, v3⟩ := hd
    by_cases h3 : k3 = k
    · subst h3
      simp [dictSet, dictGet, h2]
    · simp only [dictSet, if_neg h3, dictGet]
      by_cases h4 : k3 = k2 <;> simp [h4, ih]

theorem resumeTask_of_cancelRequested (se hr : Bool) (t : TaskState)
    (h : t.cancelRequested = true) :
    (resumeTask se hr t).hookCalls = t.hookCalls ∧
    (resumeTask se hr t).cancelRequested = true := by
  unfold resumeTask
  cases t.pc <;> simp [h]

theorem runTask_hookCalls_of_cancelRequested (t : TaskState)
    (h : t.cancelRequested = true) :
    ∀ env, (runTask t env).hookCalls = t.hookCalls := by
  intro env
  induction env generalizing t with
  | nil => rfl
  | cons step env ih =>
    obtain ⟨se, hr⟩ := step
    obtain ⟨h1, h2⟩ := resumeTask_of_cancelRequested se hr t h
    calc (runTask t ((se, hr) :: env)).hookCalls
        = (runTask (resumeTask se hr t) env).hookCalls := rfl
      _ = (resumeTask se hr t).hookCalls := ih _ h2
      _ = t.hookCalls := h1

theorem runTask_of_failed (t : TaskState) (h : t.pc = .failed) :
    ∀ env, runTask t env = t := by
  intro env
  induction env generalizing t with
  | nil => rfl
  | cons step env ih =>
    obtain ⟨se, hr⟩ := step
    have hres : resumeTask se hr t = t := by
      unfold resumeTask
      rw [h]
    show runTask (resumeTask se hr t) env = t
    rw [hres, ih t h]

theorem runSweep_preserve {P : Manager → Prop}
    (step : Manager → String → Manager × Option Err)
    (hstep : ∀ m k, P m → P (step m k).1) :
    ∀ (ks : List String) (m : Manager), P m → P (runSweep step m ks).1 := by
  intro ks
  induction ks with
  | nil => intro m hm; exact hm
  | cons k ks ih =>
    intro m hm
    have h2 := hstep m k hm
    unfold runSweep
    cases hs : step m k with
    | mk m2 e =>
      rw [hs] at h2
      cases e with
      | none => exact ih m2 h2
      | some err => exact h2

theorem setSwitch_preserves_passive (m : Manager) (k : String) (st : Bool)
    (tc : Bool) (now : ℤ) (name : String) (p : PassiveSwitch)
    (h : dictGet m.devices name = some (.passiveSwitch p)) :
    dictGet (setSwitch m k st tc now).1.devices name = some (.passiveSwitch p) := by
  unfold setSwitch
  cases hg : dictGet m.devices k with
  | none => exact h
  | some dev =>
    cases dev with
    | sensor s => by_cases htc : tc <;> simp [htc, h]
    | passiveSwitch q => by_cases htc : tc <;> simp [htc, h]
    | switch sw =>
      by_cases hk : name = k
      · subst hk
        rw [h] at hg
        cases hg
      · simpa [dictGet_dictSet_ne _ _ _ _ hk] using h

/- ----------------------------------------------------------------- -/
/- Claim theorems                                                    -/
/- ----------------------------------------------------------------- -/

/-- Claim C2 (code evaluation at the failing input): adding a fresh sensor
to an empty registry does not wire its hooks, start its task, or persist
its metadata — it raises `AttributeError`, because `enable_sensor` assigns
to `device.update_callbacks` and the source `Sensor.__init__` never creates
that attribute.  The sensor is nevertheless left in the map, unstarted and
unpersisted, contradicting the repository's own tests `test_add_device`
and `test_enable_sensor`. -/
theorem C2_code_eval :
    addDevice { devices := [], db := {} } (.sensor c2Sensor) =
      ({ devices := [("S1", .sensor c2Sensor)], db := {} },
        some (.attributeError "update_callbacks")) ∧
    c2Sensor.task = none ∧ c2Sensor.updateCallbacks = none := by
  refine ⟨?_, rfl, rfl⟩
  rfl

/-- Claim C4 (counterexample): `remove("P1")` on a registry whose passive
switch has a background task suspended at its sleep returns with that
task's cancellation merely requested — its coroutine is still suspended at
the sleep (`pc = atSleep ≠ done`), so cancellation was signalled, not
awaited, before the device was evicted and its records deleted. -/
theorem C4_counterexample :
    (removeDevice c4Manager "P1").2.1 = some (.passiveSwitch (passiveStop c4Passive)) ∧
    (passiveStop c4Passive).task =
      some { pc := .atSleep, cancelRequested := true, hookCalls := 3 } ∧
    TaskPC.atSleep ≠ TaskPC.done := by
  refine ⟨rfl, rfl, by decide⟩

/-- Claim C4 (amended): `remove(name)` stops the device by setting its stop
event and requesting task cancellation — without awaiting completion — and
proceeds at once to evict the device and delete its persisted records; the
hook is nevertheless never invoked again, because once cancellation is
requested every subsequent resumption of the coroutine observes the
`CancelledError` at its suspension point before the loop body can run, so
its hook-invocation count never changes. -/
theorem C4_cancellation_signalled_not_awaited
    (m : Manager) (name : String) (dev : Device) (t : TaskState)
    (hdev : dictGet m.devices name = some dev) (ht : deviceTask dev = some t) :
    removeDevice m name =
      ({ devices := dictRemove m.devices name, db := dbDeleteDevice m.db name },
        some (stopDevice dev), none) ∧
    deviceTask (stopDevice dev) = some (cancelTask t) ∧
    ∀ env, (runTask (cancelTask t) env).hookCalls = t.hookCalls := by
  refine ⟨?_, ?_, ?_⟩
  · unfold removeDevice
    rw [hdev]
  · cases dev with
    | sensor s =>
      simp only [deviceTask] at ht
      simp [deviceTask, stopDevice, sensorStop, ht]
    | switch sw => simp [deviceTask] at ht
    | passiveSwitch p =>
      simp only [deviceTask] at ht
      simp [deviceTask, stopDevice, passiveStop, ht]
  · intro env
    exact runTask_hookCalls_of_cancelRequested (cancelTask t) rfl env

/-- Claim C4 (witness): the amended theorem applied to the concrete
registry `c4Manager`. -/
theorem C4_amended_witness :
    removeDevice c4Manager "P1" =
      ({ devices := dictRemove c4Manager.devices "P1",
         db := dbDeleteDevice c4Manager.db "P1" },
        some (stopDevice (.passiveSwitch c4Passive)), none) ∧
    deviceTask (stopDevice (.passiveSwitch c4Passive)) =
      some (cancelTask { pc := .atSleep, cancelRequested := false, hookCalls := 3 }) ∧
    ∀ env,
      (runTask (cancelTask { pc := .atSleep, cancelRequested := false, hookCalls := 3 })
        env).hookCalls = 3 :=
  C4_cancellation_signalled_not_awaited c4Manager "P1" (.passiveSwitch c4Passive)
    { pc := .atSleep, cancelRequested := false, hookCalls := 3 } rfl rfl

/-- Claim C5 (code evaluation at the failing input): on a heterogeneous
registry (passive switch `P1`, active switch `W1`), `enable_all_switches`
completes silently, but `enable_all_sensors` raises `WrongType` at `P1`:
it calls `enable_sensor` with the strict default `type_check=True`, unlike
every other whole-fleet sweep in the manager. -/
theorem C5_code_eval :
    (enableAllSensors c5Manager).2 = some (.deviceType "P1") ∧
    (enableAllSwitches c5Manager).2 = none := by
  exact ⟨rfl, rfl⟩

/-- Claim C6 (counterexample): a freshly started background task whose
notification hook raises on the first cycle terminates at once with the
exception escaping the loop (`pc = failed`), and no further cycle ever
runs — two more scheduler resumptions leave the task unchanged.  The claim
that the error is caught and subsequent cycles keep running is false. -/
theorem C6_counterexample :
    (resumeTask false true c6Task).pc = .failed ∧
    (resumeTask false true c6Task).hookCalls = 1 ∧
    runTask (resumeTask false true c6Task) [(false, false), (false, false)] =
      resumeTask false true c6Task := by
  refine ⟨rfl, rfl, rfl⟩

/-- Claim C6 (amended): the generator loops of `Sensor` and `PassiveSwitch`
catch only `asyncio.CancelledError`; when the notification hook raises
during a cycle (of a live task that is neither cancelled nor stopped), the
exception propagates out of the `while` loop, the background task
terminates, and no subsequent cycle ever runs. -/
theorem C6_hook_failure_kills_task (t : TaskState) (se : Bool)
    (hpc : t.pc = .notStarted ∨ t.pc = .atSleep)
    (hc : t.cancelRequested = false) (hse : se = false) :
    (resumeTask se true t).pc = .failed ∧
    ∀ env, runTask (resumeTask se true t) env = resumeTask se true t := by
  have h1 : resumeTask se true t = { t with pc := .failed, hookCalls := t.hookCalls + 1 } := by
    rcases hpc with h | h <;>
      · unfold resumeTask
        rw [h]
        simp [hc, hse]
  refine ⟨by rw [h1], ?_⟩
  intro env
  exact runTask_of_failed _ (by rw [h1]) env

/-- Claim C6 (witness): the amended theorem applied to a freshly started
task. -/
theorem C6_amended_witness :
    (resumeTask false true c6Task).pc = .failed ∧
    ∀ env, runTask (resumeTask false true c6Task) env = resumeTask false true c6Task :=
  C6_hook_failure_kills_task c6Task false (Or.inl rfl) rfl rfl

/-- Claim C1 (counterexample): `get_sensor_data("S1")` when the read stalls
for 30 seconds (the `DELAY_MAX` draw fires) fails with `Timeout` naming the
device — but the caller regains control only after the full 30 seconds, far
beyond the 6-second timeout plus even a generous 5-second scheduling slack:
leaving the `with ThreadPoolExecutor` block joins the stalled worker
thread, so the call does wait for the stalled read to finish. -/
theorem C1_counterexample :
    getSensorData c1Manager "S1" true false true =
      (.error (.timeoutError "S1"), 30) ∧
    readDelay false true = 30 ∧ ¬ (30 ≤ 6 + 5) := by
  refine ⟨rfl, rfl, by decide⟩

/-- Claim C1 (amended): for every registered sensor whose read stalls
beyond the 6-second timeout, `get_sensor_data` fails with `Timeout`
annotated with the device name, but control returns to the caller only
after the stalled read's full duration (the executor shutdown joins the
worker thread), not within the timeout plus a small scheduling slack. -/
theorem C1_timeout_blocks_until_read_finishes
    (m : Manager) (name : String) (s : Sensor) (d1 d2 : Bool)
    (hdev : dictGet m.devices name = some (.sensor s))
    (hstall : 6 < readDelay d1 d2) :
    getSensorData m name true d1 d2 = (.error (.timeoutError name), readDelay d1 d2) := by
  have h : ¬ (readDelay d1 d2 ≤ 6) := by omega
  simp [getSensorData, hdev, getSensorDataWithTimeout, h]

/-- Claim C1 (witness): the amended theorem applied to the concrete
registry `c1Manager` with the 30-second delay draw. -/
theorem C1_amended_witness :
    getSensorData c1Manager "S1" true false true =
      (.error (.timeoutError "S1"), readDelay false true) :=
  C1_timeout_blocks_until_read_finishes c1Manager "S1" c1Sensor false true rfl
    (by decide)

/-- Claim C8: on a registered sensor, `set_sensor_sample_rate(name, r)`
with `r ≥ 1` succeeds, stores `r` on the sensor, and subsequent cycle
spacing (`asyncio.sleep(self._sample_rate)`) uses `r`; with `r < 1` it
fails with `ValueError` (the `InvalidArgument` of the spec) and the
registry, the sensor, and its sample rate are unchanged. -/
theorem C8_set_sample_rate (m : Manager) (name : String) (s : Sensor) (r : ℤ)
    (hdev : dictGet m.devices name = some (.sensor s)) :
    (1 ≤ r →
      setSensorSampleRate m name r =
        ({ m with devices := dictSet m.devices name (.sensor { s with sampleRate := r }) },
          none) ∧
      dictGet (setSensorSampleRate m name r).1.devices name =
        some (.sensor { s with sampleRate := r }) ∧
      cycleSpacing { s with sampleRate := r } = r) ∧
    (r < 1 → setSensorSampleRate m name r = (m, some .valueError)) := by
  constructor
  · intro h1
    have hr : ¬ r < 1 := by omega
    have heq : setSensorSampleRate m name r =
        ({ m with devices := dictSet m.devices name (.sensor { s with sampleRate := r }) },
          none) := by
      simp [setSensorSampleRate, hdev, setSampleRate, hr]
    refine ⟨heq, ?_, rfl⟩
    rw [heq]
    exact dictGet_dictSet_self m.devices name (.sensor { s with sampleRate := r })
  · intro h1
    simp [setSensorSampleRate, hdev, setSampleRate, h1]

/-- Claim C8 (witness): the theorem applied to the concrete registry
`c8Manager`, once with the valid rate 5 and once with the invalid rate 0. -/
theorem C8_witness :
    setSensorSampleRate c8Manager "S1" 5 =
      ({ c8Manager with
           devices := dictSet c8Manager.devices "S1" (.sensor { c8Sensor with sampleRate := 5 }) },
        none) ∧
    setSensorSampleRate c8Manager "S1" 0 = (c8Manager, some .valueError) :=
  ⟨((C8_set_sample_rate c8Manager "S1" c8Sensor 5 rfl).1 (by decide)).1,
   (C8_set_sample_rate c8Manager "S1" c8Sensor 0 rfl).2 (by decide)⟩

/-- Claim C9: for every registered passive switch, strict
`set_switch(name, state)` fails with `WrongType` (the manager's
`DeviceTypeError`, the spec's `OperationNotSupported`/`WrongType`) leaving
the registry unchanged; the relaxed `set_all_switches(state)` sweep leaves
the passive switch's entry untouched (silent skip); and a direct call to
`PassiveSwitch.set_state` always fails with `NotImplementedError`
(`OperationNotSupported`) leaving the switch unchanged. -/
theorem C9_passive_switch_rejections (m : Manager) (name : String)
    (p : PassiveSwitch) (st : Bool) (now : ℤ)
    (hdev : dictGet m.devices name = some (.passiveSwitch p)) :
    setSwitch m name st true now = (m, some (.deviceType name)) ∧
    setSwitch m name st false now = (m, none) ∧
    dictGet (setAllSwitches m st now).1.devices name = some (.passiveSwitch p) ∧
    passiveSetState p st = (p, some .notImplementedError) := by
  refine ⟨?_, ?_, ?_, rfl⟩
  · unfold setSwitch
    rw [hdev]
    simp
  · unfold setSwitch
    rw [hdev]
    simp
  · unfold setAllSwitches
    exact runSweep_preserve (fun m2 k => setSwitch m2 k st false now)
      (fun m2 k hm2 => setSwitch_preserves_passive m2 k st false now name p hm2)
      (m.devices.map (fun e => e.1)) m hdev

/-- Claim C9 (witness): the theorem applied to the concrete registry
`c9Manager`. -/
theorem C9_witness :
    setSwitch c9Manager "P1" true true 0 = (c9Manager, some (.deviceType "P1")) ∧
    setSwitch c9Manager "P1" true false 0 = (c9Manager, none) ∧
    dictGet (setAllSwitches c9Manager true 0).1.devices "P1" =
      some (.passiveSwitch (passiveSwitchInit "P1" 0)) ∧
    passiveSetState (passiveSwitchInit "P1" 0) true =
      (passiveSwitchInit "P1" 0, some .notImplementedError) :=
  C9_passive_switch_rejections c9Manager "P1" (passiveSwitchInit "P1" 0) true 0 rfl

theorem valueWithinOrCorrupt_clip {mn mx : ℚ} (h : mn ≤ mx) (y : ℚ) :
    valueWithinOrCorrupt mn mx (some (npClip y mn mx)) :=
  Or.inr (Or.inr ⟨npClip y mn mx, rfl, le_npClip h y, npClip_le_right y⟩)

theorem valueWithinOrCorrupt_corruption {mn mx : ℚ} (h : mn ≤ mx) (y : ℚ)
    (c1 c2 : Bool) :
    valueWithinOrCorrupt mn mx (applyRandomCorruption (npClip y mn mx) c1 c2) := by
  unfold applyRandomCorruption
  cases c1 with
  | true => exact Or.inl rfl
  | false =>
    cases c2 with
    | true => exact Or.inr (Or.inl rfl)
    | false => exact valueWithinOrCorrupt_clip h y

theorem sensorCycle_ok_inv {mn mx : ℚ} (h : mn ≤ mx) (s : Sensor) (d : Draw)
    (s2 : Sensor) (hmin : s.minData = mn) (hmax : s.maxData = mx)
    (hok : sensorCycle s d = .ok s2) :
    s2.minData = mn ∧ s2.maxData = mx ∧ valueWithinOrCorrupt mn mx s2.value := by
  subst hmin hmax
  have hrec : ∀ delta s3, recoverFromPrev s delta = .ok s3 →
      s3.minData = s.minData ∧ s3.maxData = s.maxData ∧
      valueWithinOrCorrupt s.minData s.maxData s3.value := by
    intro delta s3 hr
    unfold recoverFromPrev at hr
    cases hp : s.prevValue with
    | none => rw [hp] at hr; cases hr
    | some p =>
      rw [hp] at hr
      cases hr
      exact ⟨rfl, rfl, valueWithinOrCorrupt_clip h _⟩
  cases hv : s.value with
  | none =>
    simp only [sensorCycle, hv] at hok
    exact hrec _ _ hok
  | some x =>
    by_cases hx : x = sentinel
    · simp only [sensorCycle, hv, if_pos hx] at hok
      exact hrec _ _ hok
    · simp only [sensorCycle, hv, if_neg hx, Except.ok.injEq] at hok
      subst hok
      exact ⟨rfl, rfl, valueWithinOrCorrupt_corruption h _ _ _⟩

theorem sensorRun_inv {mn mx : ℚ} (h : mn ≤ mx) :
    ∀ (draws : List Draw) (s : Sensor), s.minData = mn → s.maxData = mx →
      valueWithinOrCorrupt mn mx s.value →
      (sensorRun s draws).minData = mn ∧ (sensorRun s draws).maxData = mx ∧
      valueWithinOrCorrupt mn mx (sensorRun s draws).value := by
  intro draws
  induction draws with
  | nil => intro s h1 h2 h3; exact ⟨h1, h2, h3⟩
  | cons d ds ih =>
    intro s h1 h2 h3
    by_cases hst : s.stopEvent
    · simp only [sensorRun, if_pos hst]
      exact ⟨h1, h2, h3⟩
    · cases hc : sensorCycle s d with
      | ok s2 =>
        obtain ⟨g1, g2, g3⟩ := sensorCycle_ok_inv h s d s2 h1 h2 hc
        simp only [sensorRun, if_neg hst, hc]
        exact ih s2 g1 g2 g3
      | error e =>
        simp only [sensorRun, if_neg hst, hc]
        exact ⟨h1, h2, h3⟩

/-- Claim C3: for every sensor with `min ≤ max` and after every number of
production cycles (under arbitrary random draws), the stored value is
within `[min, max]`, or the fault sentinel, or absent — never any other
number; hence the first component of `read_data` is always one of those
three cases. -/
theorem C3_value_invariant (name : String) (mn mx : ℚ) (sr : ℤ) (h : mn ≤ mx)
    (draws : List Draw) :
    valueWithinOrCorrupt mn mx (sensorRun (sensorInit name mn mx sr) draws).value ∧
    valueWithinOrCorrupt mn mx (readData (sensorRun (sensorInit name mn mx sr) draws)).1 := by
  have hinit : valueWithinOrCorrupt mn mx (sensorInit name mn mx sr).value := by
    refine Or.inr (Or.inr ⟨npMedianPair mn mx, rfl, ?_, ?_⟩) <;>
      · unfold npMedianPair
        linarith
  obtain ⟨-, -, h3⟩ := sensorRun_inv h draws (sensorInit name mn mx sr) rfl rfl hinit
  exact ⟨h3, h3⟩

/-- Claim C3 (witness): the invariant theorem applied to a concrete sensor
and a concrete one-cycle draw stream. -/
theorem C3_witness :
    valueWithinOrCorrupt 0 100 (sensorRun (sensorInit "S" 0 100 1) c3Draws).value ∧
    valueWithinOrCorrupt 0 100 (readData (sensorRun (sensorInit "S" 0 100 1) c3Draws)).1 :=
  C3_value_invariant "S" 0 100 1 (by norm_num) c3Draws

/-- Claim C7 (counterexample): two divergences from the claimed per-cycle
algorithm.  (a) With the value absent (`None`), `prev_value = 50`, zero
delta and the corruption draw for "missing" firing, the claim commits
"missing", but the code commits `50` — the recovery branch never applies
the corruption transform.  (b) With the value equal to the sentinel (a
present value), `prev_value = 50`, zero delta and clean corruption draws,
the claim commits the clipped `sentinel + 0 = 0`, but the code commits
`50` — the code recovers from `prev_value` for the sentinel too, not
exactly when the value is absent. -/
theorem C7_counterexample :
    cycleValue c7AbsentSensor c7DrawMissing = some (some 50) ∧
    specCommittedValue c7AbsentSensor c7DrawMissing = none ∧
    cycleValue c7SentinelSensor c7DrawClean = some (some 50) ∧
    specCommittedValue c7SentinelSensor c7DrawClean = some 0 := by
  refine ⟨?_, rfl, ?_, ?_⟩ <;>
    norm_num [cycleValue, specCommittedValue, sensorCycle, c7AbsentSensor,
      c7SentinelSensor, c7DrawMissing, c7DrawClean, sensorInit, recoverFromPrev,
      deltaChoice, npClip, npMaximum, npMinimum, applyRandomCorruption, sentinel]

/-- Claim C7 (amended): in every production cycle, when the current value
is present and not the sentinel, the candidate is the current value plus
the delta clipped to `[min, max]` with the random corruption transform
applied before commit (and the old value is promoted to `prev_value`);
when the current value is absent or equal to the sentinel, the committed
value is `prev_value` plus the delta clipped to `[min, max]`, with no
corruption transform applied. -/
theorem C7_cycle_behaviour (s : Sensor) (d : Draw) :
    (∀ x : ℚ, s.value = some x → x ≠ sentinel →
      sensorCycle s d = .ok { s with
        prevValue := some x
        value := applyRandomCorruption
          (npClip (x + deltaChoice s.maxData d.pick) s.minData s.maxData)
          d.corruptMissing d.corruptFault }) ∧
    ((s.value = none ∨ s.value = some sentinel) → ∀ p : ℚ, s.prevValue = some p →
      sensorCycle s d = .ok { s with
        value := some (npClip (p + deltaChoice s.maxData d.pick) s.minData s.maxData) }) := by
  constructor
  · intro x hx hxs
    simp only [sensorCycle, hx, if_neg hxs]
  · rintro (hv | hv) p hp <;>
      simp [sensorCycle, hv, recoverFromPrev, hp]

/-- Claim C7 (witness): the amended theorem applied to a live mid-range
sensor (present branch) and to a sentinel-valued sensor (recovery
branch). -/
theorem C7_amended_witness :
    sensorCycle c7PresentSensor c7DrawClean =
      .ok { c7PresentSensor with
              prevValue := some 50
              value := applyRandomCorruption
                (npClip (50 + deltaChoice c7PresentSensor.maxData c7DrawClean.pick)
                  c7PresentSensor.minData c7PresentSensor.maxData)
                c7DrawClean.corruptMissing c7DrawClean.corruptFault } ∧
    sensorCycle c7SentinelSensor c7DrawClean =
      .ok { c7SentinelSensor with
              value := some (npClip (50 + deltaChoice c7SentinelSensor.maxData c7DrawClean.pick)
                c7SentinelSensor.minData c7SentinelSensor.maxData) } :=
  ⟨(C7_cycle_behaviour c7PresentSensor c7DrawClean).1 50 rfl (by norm_num [sentinel]),
   (C7_cycle_behaviour c7SentinelSensor c7DrawClean).2 (Or.inr rfl) 50 rfl⟩

/-- Claim C10 (counterexample): the claim holds the freshly constructed
value to never equal the fault sentinel, but with bounds
`min = -1000000 ≤ max = -999998` the stored midpoint is exactly
`-999999`, the sentinel. -/
theorem C10_counterexample :
    ((-1000000 : ℚ) ≤ -999998) ∧
    (sensorInit "S" (-1000000) (-999998) 1).value = some sentinel := by
  constructor
  · norm_num
  · show some (npMedianPair (-1000000) (-999998)) = some sentinel
    norm_num [npMedianPair, sentinel]

/-- Claim C10 (amended): a sensor constructed with `min ≤ max` stores the
midpoint `(min + max) / 2` — which lies within `[min, max]` and is not
absent — with `prev_value` absent, and `read_data` at this point returns
exactly `(midpoint, absent)`; the stored value is distinct from the fault
sentinel except in the boundary case `min + max = 2 * sentinel`, where the
midpoint itself is the sentinel. -/
theorem C10_initial_state (name : String) (mn mx : ℚ) (sr : ℤ) (h : mn ≤ mx) :
    (sensorInit name mn mx sr).value = some (npMedianPair mn mx) ∧
    mn ≤ npMedianPair mn mx ∧ npMedianPair mn mx ≤ mx ∧
    (sensorInit name mn mx sr).prevValue = none ∧
    readData (sensorInit name mn mx sr) = (some (npMedianPair mn mx), none) ∧
    (mn + mx ≠ 2 * sentinel → (sensorInit name mn mx sr).value ≠ some sentinel) := by
  refine ⟨rfl, ?_, ?_, rfl, rfl, ?_⟩
  · unfold npMedianPair
    linarith
  · unfold npMedianPair
    linarith
  · intro hne hcontra
    apply hne
    have hmid : npMedianPair mn mx = sentinel := by
      have := hcontra
      simp only [sensorInit] at this
      exact Option.some.inj this
    unfold npMedianPair at hmid
    linarith

/-- Claim C10 (witness): the amended theorem applied to the default bounds
`[0, 100]`. -/
theorem C10_amended_witness :
    (sensorInit "S" 0 100 1).value = some (npMedianPair 0 100) ∧
    (0 : ℚ) ≤ npMedianPair 0 100 ∧ npMedianPair 0 100 ≤ 100 ∧
    (sensorInit "S" 0 100 1).prevValue = none ∧
    readData (sensorInit "S" 0 100 1) = (some (npMedianPair 0 100), none) ∧
    ((0 : ℚ) + 100 ≠ 2 * sentinel → (sensorInit "S" 0 100 1).value ≠ some sentinel) :=
  C10_initial_state "S" 0 100 1 (by norm_num)

end DemoIot
